import Mathlib

/-!
Verification of the tax-squirrel calculation-and-advisory core.

This file gives a shallow embedding, over exact rational arithmetic, of the
computational content of `TaxCalculationService`, `TaxLawService` and
`DeductionOptimizationService` from the repository, and proves the specified
properties about it.  JavaScript numbers are modelled as `ℚ`; `Math.round`
is modelled as `⌊x + 1/2⌋` (round half toward positive infinity), matching
ECMAScript semantics on exact values.  Purely descriptive record fields
(string identifiers, human-readable descriptions, document lists, dates)
carry no computational content and are omitted from the embedded records;
every field that any embedded computation reads is present.
-/

namespace TaxSquirrel

/-- Filing statuses, from the shared `FilingStatus` enum (5 values). -/
inductive FilingStatus where
  | single
  | marriedFilingJointly
  | marriedFilingSeparately
  | headOfHousehold
  | qualifyingWidow
  deriving DecidableEq

/-- One tax bracket `{min, max, rate}` from the shared `TaxBracket` interface. -/
structure TaxBracket where
  min : ℚ
  max : ℚ
  rate : ℚ
  deriving DecidableEq

/-- Wage income record; the calculator reads `wages` and `federalTaxWithheld`. -/
structure WageIncome where
  wages : ℚ
  federalTaxWithheld : ℚ
  deriving DecidableEq

/-- Self-employment income record; the calculator reads `netProfit`. -/
structure SelfEmploymentIncome where
  netProfit : ℚ
  deriving DecidableEq

/-- Investment income record; the calculator reads `taxableAmount`. -/
structure InvestmentIncome where
  taxableAmount : ℚ
  deriving DecidableEq

/-- Retirement income record; the calculator reads `taxableAmount` and
`federalTaxWithheld`. -/
structure RetirementIncome where
  taxableAmount : ℚ
  federalTaxWithheld : ℚ
  deriving DecidableEq

/-- Other income record; the calculator reads `amount` and the `taxable` flag. -/
structure OtherIncome where
  amount : ℚ
  taxable : Bool
  deriving DecidableEq

/-- The `IncomeData` aggregate from the shared types. -/
structure IncomeData where
  wages : List WageIncome
  selfEmployment : List SelfEmploymentIncome
  investment : List InvestmentIncome
  retirement : List RetirementIncome
  other : List OtherIncome
  deriving DecidableEq

/-- Itemized-deduction categories from the shared enum. -/
inductive ItemizedDeductionCategory where
  | medicalDental
  | stateLocalTaxes
  | mortgageInterest
  | charitableContributions
  | miscellaneous
  deriving DecidableEq

/-- Business-deduction categories from the shared enum (the three used by the
advisor plus the remaining declared values). -/
inductive BusinessDeductionCategory where
  | officeExpenses
  | travel
  | meals
  | vehicle
  | equipment
  | professionalServices
  | insurance
  | utilities
  | rent
  | supplies
  deriving DecidableEq

/-- One itemized deduction; the services read `category` and `amount`. -/
structure ItemizedDeduction where
  category : ItemizedDeductionCategory
  amount : ℚ
  deriving DecidableEq

/-- Above-the-line adjustment to income; the calculator reads `amount`. -/
structure IncomeAdjustment where
  amount : ℚ
  deriving DecidableEq

/-- The `DeductionData` aggregate (fields read by the embedded services). -/
structure DeductionData where
  itemizedDeductions : List ItemizedDeduction
  totalItemizedDeductions : ℚ
  adjustments : List IncomeAdjustment
  deriving DecidableEq

/-- One entry of `otherCredits`; the calculator reads `amount`. -/
structure OtherCredit where
  amount : ℚ
  deriving DecidableEq

/-- The `CreditData` aggregate from the shared types. -/
structure CreditData where
  childTaxCredit : ℚ
  earnedIncomeCredit : ℚ
  educationCredits : ℚ
  retirementSavingsCredit : ℚ
  otherCredits : List OtherCredit
  deriving DecidableEq

/-- The `TaxCalculation` output value object, field for field. -/
structure TaxCalculation where
  grossIncome : ℚ
  adjustedGrossIncome : ℚ
  taxableIncome : ℚ
  federalTaxBeforeCredits : ℚ
  totalCredits : ℚ
  federalTaxAfterCredits : ℚ
  selfEmploymentTax : ℚ
  totalTaxLiability : ℚ
  totalWithholding : ℚ
  estimatedPayments : ℚ
  refundAmount : ℚ
  amountOwed : ℚ
  effectiveTaxRate : ℚ
  marginalTaxRate : ℚ
  deriving DecidableEq

/-- The per-year `TaxLawConfiguration`; the per-filing-status `Record` maps
are embedded as functions out of `FilingStatus`. -/
structure TaxLawConfiguration where
  taxYear : ℤ
  standardDeductions : FilingStatus → ℚ
  taxBrackets : FilingStatus → List TaxBracket
  socialSecurityWageBase : ℚ
  socialSecurityRate : ℚ
  medicareRate : ℚ
  additionalMedicareRate : ℚ
  additionalMedicareThreshold : FilingStatus → ℚ
  personalExemption : ℚ
  childTaxCreditAmount : ℚ
  childTaxCreditPhaseoutThreshold : FilingStatus → ℚ

/-- The `TaxReturn` record (fields read by the embedded services; `calculations`
is the stored calculation block the advisor reads). -/
structure TaxReturn where
  taxYear : ℤ
  filingStatus : FilingStatus
  income : IncomeData
  deductions : DeductionData
  credits : CreditData
  calculations : TaxCalculation
  deriving DecidableEq

/-- ECMAScript `Math.round`: round half toward positive infinity. -/
def jsRound (x : ℚ) : ℚ := ((⌊x + 1 / 2⌋ : ℤ) : ℚ)

/-- Embeds `roundToTwoDec`: `Math.round(value * 100) / 100`. -/
def roundToTwoDec (value : ℚ) : ℚ := jsRound (value * 100) / 100

/-- Embeds `roundToFourDec`: `Math.round(value * 10000) / 10000`. -/
def roundToFourDec (value : ℚ) : ℚ := jsRound (value * 10000) / 10000

/-- Embeds `calculateGrossIncome`: wages + self-employment net profits +
taxable investment + taxable retirement + other income flagged taxable. -/
def calculateGrossIncome (income : IncomeData) : ℚ :=
  (income.wages.map WageIncome.wages).sum
    + (income.selfEmployment.map SelfEmploymentIncome.netProfit).sum
    + (income.investment.map InvestmentIncome.taxableAmount).sum
    + (income.retirement.map RetirementIncome.taxableAmount).sum
    + ((income.other.filter OtherIncome.taxable).map OtherIncome.amount).sum

/-- Embeds `calculateAdjustedGrossIncome`:
`max(0, grossIncome - Σ adjustments.amount)`. -/
def calculateAdjustedGrossIncome (grossIncome : ℚ) (deductions : DeductionData) : ℚ :=
  max 0 (grossIncome - (deductions.adjustments.map IncomeAdjustment.amount).sum)

/-- Embeds `calculateTaxableIncome`: subtract the larger of the standard and
itemized deduction, clamped at 0. -/
def calculateTaxableIncome (adjustedGrossIncome : ℚ) (deductions : DeductionData)
    (taxLawConfig : TaxLawConfiguration) (filingStatus : FilingStatus) : ℚ :=
  max 0 (adjustedGrossIncome
    - max (taxLawConfig.standardDeductions filingStatus) deductions.totalItemizedDeductions)

/-- The loop body of `calculateFederalTax`: walk the brackets, at each taking
`min(remainingIncome, bracket.max - bracket.min)` at `bracket.rate`, stopping
once remaining income reaches zero. -/
def bracketWalk : List TaxBracket → ℚ → ℚ
  | [], _ => 0
  | b :: rest, remainingIncome =>
    if remainingIncome ≤ 0 then 0
    else
      let taxableAtThisBracket := min remainingIncome (b.max - b.min)
      taxableAtThisBracket * b.rate + bracketWalk rest (remainingIncome - taxableAtThisBracket)

/-- Embeds `calculateFederalTax`. -/
def calculateFederalTax (taxableIncome : ℚ) (taxLawConfig : TaxLawConfiguration)
    (filingStatus : FilingStatus) : ℚ :=
  bracketWalk (taxLawConfig.taxBrackets filingStatus) taxableIncome

/-- The loop of `calculateMarginalTaxRate`: return the rate of the first
bracket with `min ≤ income < max`, or nothing when the loop falls through. -/
def marginalLoop : List TaxBracket → ℚ → Option ℚ
  | [], _ => none
  | b :: rest, taxableIncome =>
    if b.min ≤ taxableIncome ∧ taxableIncome < b.max then some b.rate
    else marginalLoop rest taxableIncome

/-- The body of `calculateMarginalTaxRate` on a bracket list: the loop above,
then the fallback to the last bracket's rate; `none` models the thrown
`TypeError` when the list is empty (`brackets[brackets.length - 1]`). -/
def marginalRateOfList (brackets : List TaxBracket) (taxableIncome : ℚ) : Option ℚ :=
  match marginalLoop brackets taxableIncome with
  | some rate => some rate
  | none => brackets.getLast?.map TaxBracket.rate

/-- Embeds `calculateMarginalTaxRate`. -/
def calculateMarginalTaxRate (taxableIncome : ℚ) (taxLawConfig : TaxLawConfiguration)
    (filingStatus : FilingStatus) : Option ℚ :=
  marginalRateOfList (taxLawConfig.taxBrackets filingStatus) taxableIncome

/-- Embeds `calculateChildTaxCredit`: early return on a zero base credit, full
base at or below the threshold, else subtract `ceil(excess / 1000) * 50`
floored at 0. -/
def calculateChildTaxCredit (baseCredit adjustedGrossIncome : ℚ)
    (taxLawConfig : TaxLawConfiguration) (filingStatus : FilingStatus) : ℚ :=
  if baseCredit = 0 then 0
  else
    let phaseoutThreshold := taxLawConfig.childTaxCreditPhaseoutThreshold filingStatus
    if adjustedGrossIncome ≤ phaseoutThreshold then baseCredit
    else
      let excessIncome := adjustedGrossIncome - phaseoutThreshold
      let phaseoutAmount := ((⌈excessIncome / 1000⌉ : ℤ) : ℚ) * 50
      max 0 (baseCredit - phaseoutAmount)

/-- Embeds `calculateTotalCredits`: phased child credit plus the flat credits. -/
def calculateTotalCredits (credits : CreditData) (adjustedGrossIncome : ℚ)
    (taxLawConfig : TaxLawConfiguration) (filingStatus : FilingStatus) : ℚ :=
  calculateChildTaxCredit credits.childTaxCredit adjustedGrossIncome taxLawConfig filingStatus
    + credits.earnedIncomeCredit
    + credits.educationCredits
    + credits.retirementSavingsCredit
    + (credits.otherCredits.map OtherCredit.amount).sum

/-- Total self-employment net profit of an income record. -/
def selfEmploymentNetProfit (income : IncomeData) : ℚ :=
  (income.selfEmployment.map SelfEmploymentIncome.netProfit).sum

/-- Embeds `calculateSelfEmploymentTax`: zero at or below 400, otherwise the
social-security portion on `min(profit * 0.9235, wageBase)` plus the Medicare
portion on `profit * 0.9235`, each doubled; the additional Medicare tax is
left at zero as in the source. -/
def calculateSelfEmploymentTax (income : IncomeData)
    (taxLawConfig : TaxLawConfiguration) : ℚ :=
  let selfEmploymentIncome := selfEmploymentNetProfit income
  if selfEmploymentIncome ≤ 400 then 0
  else
    let seIncomeForTax := selfEmploymentIncome * 0.9235
    let socialSecurityTax :=
      min seIncomeForTax taxLawConfig.socialSecurityWageBase
        * taxLawConfig.socialSecurityRate * 2
    let medicareTax := seIncomeForTax * taxLawConfig.medicareRate * 2
    let additionalMedicareTax : ℚ := 0
    socialSecurityTax + medicareTax + additionalMedicareTax

/-- Embeds `calculateTotalWithholding`: federal tax withheld from wages and
retirement distributions. -/
def calculateTotalWithholding (income : IncomeData) : ℚ :=
  (income.wages.map WageIncome.federalTaxWithheld).sum
    + (income.retirement.map RetirementIncome.federalTaxWithheld).sum

/-- Embeds the body of `TaxCalculationService.calculateTax` after the
configuration lookup succeeded.  The result is `none` exactly when the
marginal-rate lookup faults on an empty bracket list, which the service
catches and surfaces as an internal error. -/
def calculateTax (taxReturn : TaxReturn) (taxLawConfig : TaxLawConfiguration) :
    Option TaxCalculation :=
  let grossIncome := calculateGrossIncome taxReturn.income
  let adjustedGrossIncome := calculateAdjustedGrossIncome grossIncome taxReturn.deductions
  let taxableIncome :=
    calculateTaxableIncome adjustedGrossIncome taxReturn.deductions taxLawConfig
      taxReturn.filingStatus
  let federalTaxBeforeCredits :=
    calculateFederalTax taxableIncome taxLawConfig taxReturn.filingStatus
  let totalCredits :=
    calculateTotalCredits taxReturn.credits adjustedGrossIncome taxLawConfig
      taxReturn.filingStatus
  let federalTaxAfterCredits := max 0 (federalTaxBeforeCredits - totalCredits)
  let selfEmploymentTax := calculateSelfEmploymentTax taxReturn.income taxLawConfig
  let totalTaxLiability := federalTaxAfterCredits + selfEmploymentTax
  let totalWithholding := calculateTotalWithholding taxReturn.income
  let estimatedPayments : ℚ := 0
  let refundAmount :=
    if totalWithholding + estimatedPayments > totalTaxLiability then
      totalWithholding + estimatedPayments - totalTaxLiability
    else 0
  let amountOwed :=
    if totalWithholding + estimatedPayments > totalTaxLiability then 0
    else totalTaxLiability - totalWithholding - estimatedPayments
  let effectiveTaxRate :=
    if adjustedGrossIncome > 0 then totalTaxLiability / adjustedGrossIncome else 0
  (calculateMarginalTaxRate taxableIncome taxLawConfig taxReturn.filingStatus).map
    fun marginalTaxRate =>
      { grossIncome := roundToTwoDec grossIncome
        adjustedGrossIncome := roundToTwoDec adjustedGrossIncome
        taxableIncome := roundToTwoDec taxableIncome
        federalTaxBeforeCredits := roundToTwoDec federalTaxBeforeCredits
        totalCredits := roundToTwoDec totalCredits
        federalTaxAfterCredits := roundToTwoDec federalTaxAfterCredits
        selfEmploymentTax := roundToTwoDec selfEmploymentTax
        totalTaxLiability := roundToTwoDec totalTaxLiability
        totalWithholding := roundToTwoDec totalWithholding
        estimatedPayments := roundToTwoDec estimatedPayments
        refundAmount := roundToTwoDec refundAmount
        amountOwed := roundToTwoDec amountOwed
        effectiveTaxRate := roundToFourDec effectiveTaxRate
        marginalTaxRate := roundToFourDec marginalTaxRate }

/-- Embeds `calculateStandardDeduction`: the configured amount, or 0 when the
configuration lookup returned nothing (`config?.standardDeductions[fs] || 0`). -/
def calculateStandardDeduction (taxLawConfig : Option TaxLawConfiguration)
    (filingStatus : FilingStatus) : ℚ :=
  match taxLawConfig with
  | some config => config.standardDeductions filingStatus
  | none => 0

/-- Result record of `calculateItemizedVsStandard`. -/
structure ItemizedVsStandard where
  useItemized : Bool
  deductionAmount : ℚ
  savings : ℚ
  deriving DecidableEq

/-- Embeds `calculateItemizedVsStandard`. -/
def calculateItemizedVsStandard (taxLawConfig : Option TaxLawConfiguration)
    (filingStatus : FilingStatus) (itemizedDeductions : ℚ) : ItemizedVsStandard :=
  let standardDeduction := calculateStandardDeduction taxLawConfig filingStatus
  let useItemized := decide (itemizedDeductions > standardDeduction)
  { useItemized := useItemized
    deductionAmount := if itemizedDeductions > standardDeduction then itemizedDeductions
      else standardDeduction
    savings := if itemizedDeductions > standardDeduction then
      itemizedDeductions - standardDeduction else 0 }

/-- Standard deductions of `getTaxYear2024Configuration`. -/
def standardDeductions2024 : FilingStatus → ℚ
  | .single => 14600
  | .marriedFilingJointly => 29200
  | .marriedFilingSeparately => 14600
  | .headOfHousehold => 21900
  | .qualifyingWidow => 29200

/-- Tax brackets of `getTaxYear2024Configuration`. -/
def taxBrackets2024 : FilingStatus → List TaxBracket
  | .single =>
      [⟨0, 11000, 0.10⟩, ⟨11000, 44725, 0.12⟩, ⟨44725, 95375, 0.22⟩,
       ⟨95375, 197050, 0.24⟩, ⟨197050, 250525, 0.32⟩, ⟨250525, 626350, 0.35⟩,
       ⟨626350, 999999999, 0.37⟩]
  | .marriedFilingJointly =>
      [⟨0, 22000, 0.10⟩, ⟨22000, 89450, 0.12⟩, ⟨89450, 190750, 0.22⟩,
       ⟨190750, 364200, 0.24⟩, ⟨364200, 462500, 0.32⟩, ⟨462500, 693750, 0.35⟩,
       ⟨693750, 999999999, 0.37⟩]
  | .marriedFilingSeparately =>
      [⟨0, 11000, 0.10⟩, ⟨11000, 44725, 0.12⟩, ⟨44725, 95375, 0.22⟩,
       ⟨95375, 182050, 0.24⟩, ⟨182050, 231250, 0.32⟩, ⟨231250, 346875, 0.35⟩,
       ⟨346875, 999999999, 0.37⟩]
  | .headOfHousehold =>
      [⟨0, 15700, 0.10⟩, ⟨15700, 59850, 0.12⟩, ⟨59850, 95350, 0.22⟩,
       ⟨95350, 182050, 0.24⟩, ⟨182050, 231250, 0.32⟩, ⟨231250, 609350, 0.35⟩,
       ⟨609350, 999999999, 0.37⟩]
  | .qualifyingWidow =>
      [⟨0, 22000, 0.10⟩, ⟨22000, 89450, 0.12⟩, ⟨89450, 190750, 0.22⟩,
       ⟨190750, 364200, 0.24⟩, ⟨364200, 462500, 0.32⟩, ⟨462500, 693750, 0.35⟩,
       ⟨693750, 999999999, 0.37⟩]

/-- Additional-Medicare thresholds of `getTaxYear2024Configuration`. -/
def additionalMedicareThreshold2024 : FilingStatus → ℚ
  | .single => 200000
  | .marriedFilingJointly => 250000
  | .marriedFilingSeparately => 125000
  | .headOfHousehold => 200000
  | .qualifyingWidow => 250000

/-- Child-tax-credit phase-out thresholds of `getTaxYear2024Configuration`. -/
def childTaxCreditPhaseoutThreshold2024 : FilingStatus → ℚ
  | .single => 200000
  | .marriedFilingJointly => 400000
  | .marriedFilingSeparately => 200000
  | .headOfHousehold => 200000
  | .qualifyingWidow => 400000

/-- Embeds `getTaxYear2024Configuration`. -/
def getTaxYear2024Configuration : TaxLawConfiguration :=
  { taxYear := 2024
    standardDeductions := standardDeductions2024
    taxBrackets := taxBrackets2024
    socialSecurityWageBase := 168600
    socialSecurityRate := 0.062
    medicareRate := 0.0145
    additionalMedicareRate := 0.009
    additionalMedicareThreshold := additionalMedicareThreshold2024
    personalExemption := 0
    childTaxCreditAmount := 2000
    childTaxCreditPhaseoutThreshold := childTaxCreditPhaseoutThreshold2024 }

/-- An all-zero stored calculation block for sample returns. -/
def emptyCalculations : TaxCalculation :=
  ⟨0, 0, 0, 0, 0, 0, 0, 0, 0, 0, 0, 0, 0, 0⟩

/-- Single filer for tax year 2024 whose only income is wages of 60000 with
federal withholding of 5000 (the specified scenario). -/
def scenarioReturn2024 : TaxReturn :=
  { taxYear := 2024
    filingStatus := .single
    income :=
      { wages := [{ wages := 60000, federalTaxWithheld := 5000 }]
        selfEmployment := []
        investment := []
        retirement := []
        other := [] }
    deductions := { itemizedDeductions := [], totalItemizedDeductions := 0, adjustments := [] }
    credits :=
      { childTaxCredit := 0
        earnedIncomeCredit := 0
        educationCredits := 0
        retirementSavingsCredit := 0
        otherCredits := [] }
    calculations := emptyCalculations }

/-- Outcome of the Registry's configuration lookup as the service code can
observe it: a cache/store hit, an empty query result, or a store error
thrown by the external fetch. -/
inductive StoreResult where
  | found (config : TaxLawConfiguration)
  | notFound
  | storeError

/-- Embeds `TaxLawService.getTaxLawConfiguration` as seen by its caller: a hit
yields the configuration; an empty query result returns null after a warning
log; a thrown store error is caught, logged, and also returns null.  The two
failure causes differ only in what is logged. -/
def getTaxLawConfiguration : StoreResult → Option TaxLawConfiguration
  | .found config => some config
  | .notFound => none
  | .storeError => none

/-- Error component of the service's `ApiResponse`. -/
inductive CalcError where
  | internalError (message : String)
  deriving DecidableEq

/-- Message built by `calculateTax` when the configuration lookup returns
nothing. -/
def configNotFoundMessage (taxYear : ℤ) : String :=
  "Tax law configuration not found for year " ++ toString taxYear

/-- Embeds `TaxCalculationService.calculateTax` including the configuration
lookup and both error paths of the source. -/
def calculateTaxResponse (taxReturn : TaxReturn) (store : StoreResult) :
    Except CalcError TaxCalculation :=
  match getTaxLawConfiguration store with
  | none => .error (.internalError (configNotFoundMessage taxReturn.taxYear))
  | some config =>
    match calculateTax taxReturn config with
    | some calculation => .ok calculation
    | none => .error (.internalError "Tax calculation failed due to internal error")

/-- Adjusted gross income as computed by the `calculateTax` pipeline. -/
def adjustedGrossIncomeOf (taxReturn : TaxReturn) : ℚ :=
  calculateAdjustedGrossIncome (calculateGrossIncome taxReturn.income) taxReturn.deductions

/-- Taxable income as computed by the `calculateTax` pipeline. -/
def taxableIncomeOf (taxReturn : TaxReturn) (taxLawConfig : TaxLawConfiguration) : ℚ :=
  calculateTaxableIncome (adjustedGrossIncomeOf taxReturn) taxReturn.deductions taxLawConfig
    taxReturn.filingStatus

/-- Total tax liability as computed by the `calculateTax` pipeline. -/
def totalTaxLiabilityOf (taxReturn : TaxReturn) (taxLawConfig : TaxLawConfiguration) : ℚ :=
  max 0 (calculateFederalTax (taxableIncomeOf taxReturn taxLawConfig) taxLawConfig
        taxReturn.filingStatus
      - calculateTotalCredits taxReturn.credits (adjustedGrossIncomeOf taxReturn) taxLawConfig
        taxReturn.filingStatus)
    + calculateSelfEmploymentTax taxReturn.income taxLawConfig

/-- A law configuration with both self-employment rates set to zero;
syntactically a legal `TaxLawConfiguration`. -/
def zeroRateConfiguration : TaxLawConfiguration :=
  { taxYear := 2024
    standardDeductions := fun _ => 0
    taxBrackets := fun _ => [⟨0, 999999999, 0⟩]
    socialSecurityWageBase := 168600
    socialSecurityRate := 0
    medicareRate := 0
    additionalMedicareRate := 0
    additionalMedicareThreshold := fun _ => 0
    personalExemption := 0
    childTaxCreditAmount := 0
    childTaxCreditPhaseoutThreshold := fun _ => 0 }

/-- Income consisting of a single self-employment record with net profit 401. -/
def seIncome401 : IncomeData :=
  { wages := [], selfEmployment := [⟨401⟩], investment := [], retirement := [], other := [] }

/-- Income consisting of a single self-employment record with net profit 400. -/
def seIncome400 : IncomeData :=
  { wages := [], selfEmployment := [⟨400⟩], investment := [], retirement := [], other := [] }

/-- A tax return with no income at all (adjusted gross income 0). -/
def zeroReturn : TaxReturn :=
  { taxYear := 2024
    filingStatus := .single
    income := { wages := [], selfEmployment := [], investment := [], retirement := [], other := [] }
    deductions := { itemizedDeductions := [], totalItemizedDeductions := 0, adjustments := [] }
    credits :=
      { childTaxCredit := 0
        earnedIncomeCredit := 0
        educationCredits := 0
        retirementSavingsCredit := 0
        otherCredits := [] }
    calculations := emptyCalculations }

/-- The calculation record produced for `scenarioReturn2024` under the 2024
configuration. -/
def scenarioCalc2024 : TaxCalculation :=
  { grossIncome := 60000
    adjustedGrossIncome := 60000
    taxableIncome := 45400
    federalTaxBeforeCredits := 5295.50
    totalCredits := 0
    federalTaxAfterCredits := 5295.50
    selfEmploymentTax := 0
    totalTaxLiability := 5295.50
    totalWithholding := 5000
    estimatedPayments := 0
    refundAmount := 0
    amountOwed := 295.50
    effectiveTaxRate := 0.0883
    marginalTaxRate := 0.22 }

/-- Recommendation category: the source's `DeductionRecommendation.category`
field holds either of the two enums; the embedding makes the union explicit. -/
inductive RecommendationCategory where
  | itemized (category : ItemizedDeductionCategory)
  | business (category : BusinessDeductionCategory)
  deriving DecidableEq

/-- A `DeductionRecommendation` (the human-readable description and the
required-document string list carry no computational content and are
omitted). -/
structure DeductionRecommendation where
  category : RecommendationCategory
  estimatedAmount : ℚ
  confidence : ℚ
  potentialSavings : ℚ
  deriving DecidableEq

/-- Embeds `calculateTaxSavings`. -/
def calculateTaxSavings (deductionAmount marginalTaxRate : ℚ) : ℚ :=
  deductionAmount * marginalTaxRate

/-- Embeds `analyzeMedicalDeductions`: a gap recommendation below the
7.5-percent-of-AGI threshold, plus a premium recommendation when AGI exceeds
50000; each push of the source is one conditional singleton. -/
def analyzeMedicalDeductions (taxReturn : TaxReturn) : List DeductionRecommendation :=
  let adjustedGrossIncome := taxReturn.calculations.adjustedGrossIncome
  let medicalThreshold := adjustedGrossIncome * 0.075
  let currentMedicalDeductions :=
    ((taxReturn.deductions.itemizedDeductions.filter
        (fun d => decide (d.category = ItemizedDeductionCategory.medicalDental))).map
      ItemizedDeduction.amount).sum
  (if currentMedicalDeductions < medicalThreshold then
    let neededAmount := medicalThreshold - currentMedicalDeductions + 1
    [{ category := .itemized .medicalDental
       estimatedAmount := neededAmount
       confidence := 0.8
       potentialSavings :=
         calculateTaxSavings neededAmount taxReturn.calculations.marginalTaxRate }]
  else [])
    ++ (if adjustedGrossIncome > 50000 then
      [{ category := .itemized .medicalDental
         estimatedAmount := 6000
         confidence := 0.6
         potentialSavings :=
           calculateTaxSavings 6000 taxReturn.calculations.marginalTaxRate }]
    else [])

/-- Embeds `analyzeStateLocalTaxDeductions`: remaining capacity up to the
fixed 10000 SALT cap. -/
def analyzeStateLocalTaxDeductions (taxReturn : TaxReturn) : List DeductionRecommendation :=
  let saltCap : ℚ := 10000
  let currentSALT :=
    ((taxReturn.deductions.itemizedDeductions.filter
        (fun d => decide (d.category = ItemizedDeductionCategory.stateLocalTaxes))).map
      ItemizedDeduction.amount).sum
  if currentSALT < saltCap then
    let remainingCapacity := saltCap - currentSALT
    [{ category := .itemized .stateLocalTaxes
       estimatedAmount := min remainingCapacity 3000
       confidence := 0.7
       potentialSavings :=
         calculateTaxSavings (min remainingCapacity 3000)
           taxReturn.calculations.marginalTaxRate }]
  else []

/-- Embeds `analyzeMortgageInterestDeductions`: suggested only when no
mortgage-interest deduction is present and AGI exceeds 40000. -/
def analyzeMortgageInterestDeductions (taxReturn : TaxReturn) :
    List DeductionRecommendation :=
  let hasMortgageInterest :=
    taxReturn.deductions.itemizedDeductions.any
      (fun d => decide (d.category = ItemizedDeductionCategory.mortgageInterest))
  if hasMortgageInterest = false ∧ taxReturn.calculations.adjustedGrossIncome > 40000 then
    [{ category := .itemized .mortgageInterest
       estimatedAmount := 8000
       confidence := 0.5
       potentialSavings := calculateTaxSavings 8000 taxReturn.calculations.marginalTaxRate }]
  else []

/-- Embeds `analyzeCharitableDeductions`: gap up to the smaller of 2 percent
of AGI and 2000. -/
def analyzeCharitableDeductions (taxReturn : TaxReturn) : List DeductionRecommendation :=
  let adjustedGrossIncome := taxReturn.calculations.adjustedGrossIncome
  let currentCharitable :=
    ((taxReturn.deductions.itemizedDeductions.filter
        (fun d => decide (d.category = ItemizedDeductionCategory.charitableContributions))).map
      ItemizedDeduction.amount).sum
  let suggestedCharitableAmount := min (adjustedGrossIncome * 0.02) 2000
  if currentCharitable < suggestedCharitableAmount then
    let additionalAmount := suggestedCharitableAmount - currentCharitable
    [{ category := .itemized .charitableContributions
       estimatedAmount := additionalAmount
       confidence := 0.4
       potentialSavings :=
         calculateTaxSavings additionalAmount taxReturn.calculations.marginalTaxRate }]
  else []

/-- Embeds `analyzeBusinessDeductions`: three fixed suggestions (office,
vehicle, professional services) gated on the presence of self-employment
income. -/
def analyzeBusinessDeductions (taxReturn : TaxReturn) : List DeductionRecommendation :=
  if taxReturn.income.selfEmployment.length > 0 then
    [{ category := .business .officeExpenses
       estimatedAmount := 1200
       confidence := 0.6
       potentialSavings := calculateTaxSavings 1200 taxReturn.calculations.marginalTaxRate },
     { category := .business .vehicle
       estimatedAmount := 2000
       confidence := 0.7
       potentialSavings := calculateTaxSavings 2000 taxReturn.calculations.marginalTaxRate },
     { category := .business .professionalServices
       estimatedAmount := 800
       confidence := 0.5
       potentialSavings := calculateTaxSavings 800 taxReturn.calculations.marginalTaxRate }]
  else []

/-- Embeds `analyzeEducationDeductions`: student-loan interest below AGI
85000 and tuition below AGI 80000. -/
def analyzeEducationDeductions (taxReturn : TaxReturn) : List DeductionRecommendation :=
  let adjustedGrossIncome := taxReturn.calculations.adjustedGrossIncome
  (if adjustedGrossIncome < 85000 then
    [{ category := .itemized .miscellaneous
       estimatedAmount := 1500
       confidence := 0.4
       potentialSavings := calculateTaxSavings 1500 taxReturn.calculations.marginalTaxRate }]
  else [])
    ++ (if adjustedGrossIncome < 80000 then
      [{ category := .itemized .miscellaneous
         estimatedAmount := 4000
         confidence := 0.3
         potentialSavings := calculateTaxSavings 4000 taxReturn.calculations.marginalTaxRate }]
    else [])

/-- Embeds `analyzeRetirementDeductions`: an unconditional IRA suggestion and
an HSA suggestion below AGI 100000. -/
def analyzeRetirementDeductions (taxReturn : TaxReturn) : List DeductionRecommendation :=
  let adjustedGrossIncome := taxReturn.calculations.adjustedGrossIncome
  let iraContributionLimit : ℚ := 6500
  [{ category := .itemized .miscellaneous
     estimatedAmount := iraContributionLimit
     confidence := 0.8
     potentialSavings :=
       calculateTaxSavings iraContributionLimit taxReturn.calculations.marginalTaxRate }]
    ++ (if adjustedGrossIncome < 100000 then
      [{ category := .itemized .miscellaneous
         estimatedAmount := 4150
         confidence := 0.5
         potentialSavings := calculateTaxSavings 4150 taxReturn.calculations.marginalTaxRate }]
    else [])

/-- The seven heuristic rules applied in source order, before sorting. -/
def ruleRecommendations (taxReturn : TaxReturn) : List DeductionRecommendation :=
  analyzeMedicalDeductions taxReturn
    ++ analyzeStateLocalTaxDeductions taxReturn
    ++ analyzeMortgageInterestDeductions taxReturn
    ++ analyzeCharitableDeductions taxReturn
    ++ analyzeBusinessDeductions taxReturn
    ++ analyzeEducationDeductions taxReturn
    ++ analyzeRetirementDeductions taxReturn

/-- Stable insertion into a list sorted by descending `potentialSavings`: the
inserted element goes after every strictly greater element and before equal
ones, which is where ECMAScript's stable `Array.prototype.sort` with
comparator `(a, b) => b.potentialSavings - a.potentialSavings` keeps an
element that originally came later. -/
def insertDesc (r : DeductionRecommendation) :
    List DeductionRecommendation → List DeductionRecommendation
  | [] => [r]
  | x :: xs =>
    if r.potentialSavings < x.potentialSavings then x :: insertDesc r xs
    else r :: x :: xs

/-- Stable sort by descending `potentialSavings`, modelling the source's
`recommendations.sort((a, b) => b.potentialSavings - a.potentialSavings)`
(stable per the ECMAScript specification). -/
def sortByPotentialSavingsDesc : List DeductionRecommendation → List DeductionRecommendation
  | [] => []
  | x :: xs => insertDesc x (sortByPotentialSavingsDesc xs)

/-- Embeds `generateDeductionRecommendations`: the seven rules in order, then
the stable descending sort by potential savings. -/
def generateDeductionRecommendations (taxReturn : TaxReturn) :
    List DeductionRecommendation :=
  sortByPotentialSavingsDesc (ruleRecommendations taxReturn)

/-- The `standardVsItemized` block of `optimizeDeductions`. -/
structure StandardVsItemized where
  useItemized : Bool
  standardAmount : ℚ
  itemizedAmount : ℚ
  savings : ℚ
  deriving DecidableEq

/-- Result record of `optimizeDeductions`. -/
structure OptimizationResult where
  recommendations : List DeductionRecommendation
  standardVsItemized : StandardVsItemized
  potentialSavings : ℚ
  deriving DecidableEq

/-- Embeds `optimizeDeductions` (the configuration parameter is the outcome
of the Registry lookup used by `calculateItemizedVsStandard` and
`calculateStandardDeduction`). -/
def optimizeDeductions (taxReturn : TaxReturn)
    (taxLawConfig : Option TaxLawConfiguration) : OptimizationResult :=
  let recommendations := generateDeductionRecommendations taxReturn
  let standardVsItemized :=
    calculateItemizedVsStandard taxLawConfig taxReturn.filingStatus
      taxReturn.deductions.totalItemizedDeductions
  let potentialSavings :=
    (recommendations.map DeductionRecommendation.potentialSavings).sum
  { recommendations := recommendations
    standardVsItemized :=
      { useItemized := standardVsItemized.useItemized
        standardAmount := calculateStandardDeduction taxLawConfig taxReturn.filingStatus
        itemizedAmount := taxReturn.deductions.totalItemizedDeductions
        savings := standardVsItemized.savings }
    potentialSavings := potentialSavings }

/-- A proposed deduction passed to `analyzeDeductionStrategy`. -/
structure ProposedDeduction where
  category : String
  amount : ℚ
  deriving DecidableEq

/-- Verdict of `analyzeDeductionStrategy`. -/
inductive StrategyVerdict where
  | itemize
  | standard
  deriving DecidableEq

/-- Result record of `analyzeDeductionStrategy`. -/
structure StrategyResult where
  currentTax : ℚ
  newTax : ℚ
  savings : ℚ
  recommendation : StrategyVerdict
  deriving DecidableEq

/-- A heap of mutable `DeductionData` objects addressed by reference, with a
bump allocator; this models the JavaScript object graph in which a tax
return holds its `deductions` sub-object by reference. -/
structure Store where
  cells : Nat → DeductionData
  next : Nat

/-- Dereference a deductions object. -/
def Store.read (s : Store) (ref : Nat) : DeductionData := s.cells ref

/-- Mutate the deductions object behind a reference. -/
def Store.write (s : Store) (ref : Nat) (d : DeductionData) : Store :=
  { cells := fun n => if n = ref then d else s.cells n, next := s.next }

/-- Allocate a fresh deductions object (the spread `{ ...deductions }`). -/
def Store.alloc (s : Store) (d : DeductionData) : Store × Nat :=
  ({ cells := fun n => if n = s.next then d else s.cells n, next := s.next + 1 }, s.next)

/-- A tax-return object whose `deductions` sub-object is held by reference;
the remaining fields are immutable during `analyzeDeductionStrategy`. -/
structure TaxReturnRef where
  taxYear : ℤ
  filingStatus : FilingStatus
  income : IncomeData
  deductionsRef : Nat
  credits : CreditData
  calculations : TaxCalculation

/-- The plain tax-return value a reference-holding object denotes in a given
heap: every field the caller can observe. -/
def concretize (s : Store) (taxReturn : TaxReturnRef) : TaxReturn :=
  { taxYear := taxReturn.taxYear
    filingStatus := taxReturn.filingStatus
    income := taxReturn.income
    deductions := s.read taxReturn.deductionsRef
    credits := taxReturn.credits
    calculations := taxReturn.calculations }

/-- The source's `calculation.data?.totalTaxLiability || 0`. -/
def liabilityOrZero (response : Except CalcError TaxCalculation) : ℚ :=
  match response with
  | .ok calculation => calculation.totalTaxLiability
  | .error _ => 0

/-- Embeds `analyzeDeductionStrategy` over the heap model: `{ ...taxReturn }`
is a shallow copy sharing the deductions reference, `modifiedTaxReturn.deductions
= { ...taxReturn.deductions }` allocates a fresh deductions object, and the
`+=` of the proposed total mutates only that fresh object. -/
def analyzeDeductionStrategy (s : Store) (taxReturn : TaxReturnRef)
    (proposedDeductions : List ProposedDeduction) (store : StoreResult) :
    StrategyResult × Store :=
  let currentTax := liabilityOrZero (calculateTaxResponse (concretize s taxReturn) store)
  let allocated := s.alloc (s.read taxReturn.deductionsRef)
  let s1 := allocated.1
  let newRef := allocated.2
  let additionalItemizedAmount := (proposedDeductions.map ProposedDeduction.amount).sum
  let copied := s1.read newRef
  let s2 := s1.write newRef
    { copied with
      totalItemizedDeductions := copied.totalItemizedDeductions + additionalItemizedAmount }
  let modifiedTaxReturn : TaxReturnRef := { taxReturn with deductionsRef := newRef }
  let newTax := liabilityOrZero (calculateTaxResponse (concretize s2 modifiedTaxReturn) store)
  let savings := currentTax - newTax
  let standardDeduction :=
    calculateStandardDeduction (getTaxLawConfiguration store) taxReturn.filingStatus
  let recommendation :=
    if (s2.read modifiedTaxReturn.deductionsRef).totalItemizedDeductions > standardDeduction
    then StrategyVerdict.itemize else StrategyVerdict.standard
  ({ currentTax := currentTax
     newTax := newTax
     savings := savings
     recommendation := recommendation }, s2)

/-- A return with self-employment income (net profit 10000) and nothing else. -/
def seReturn2024 : TaxReturn :=
  { taxYear := 2024
    filingStatus := .single
    income :=
      { wages := [], selfEmployment := [⟨10000⟩], investment := [], retirement := [], other := [] }
    deductions := { itemizedDeductions := [], totalItemizedDeductions := 0, adjustments := [] }
    credits :=
      { childTaxCredit := 0
        earnedIncomeCredit := 0
        educationCredits := 0
        retirementSavingsCredit := 0
        otherCredits := [] }
    calculations := emptyCalculations }

/-- An empty deductions object. -/
def emptyDeductions : DeductionData :=
  { itemizedDeductions := [], totalItemizedDeductions := 0, adjustments := [] }

/-- A one-object heap whose cell 0 is an empty deductions object. -/
def sampleStore : Store := { cells := fun _ => emptyDeductions, next := 1 }

/-- A reference-holding return whose deductions live in cell 0 of the heap. -/
def sampleReturnRef : TaxReturnRef :=
  { taxYear := 2024
    filingStatus := .single
    income := { wages := [], selfEmployment := [], investment := [], retirement := [], other := [] }
    deductionsRef := 0
    credits :=
      { childTaxCredit := 0
        earnedIncomeCredit := 0
        educationCredits := 0
        retirementSavingsCredit := 0
        otherCredits := [] }
    calculations := emptyCalculations }

/-- The bracket-list configuration invariant exactly as the specification
states it: contiguous (`brackets[i].max == brackets[i+1].min`) starting at 0,
bounds ascending, rates non-decreasing. -/
def bracketsContiguousAscending (brackets : List TaxBracket) : Prop :=
  brackets.head?.map TaxBracket.min = some 0
    ∧ List.Chain' (fun a b => a.max = b.min) brackets
    ∧ (∀ b ∈ brackets, b.min < b.max)
    ∧ List.Chain' (fun a b => a.rate ≤ b.rate) brackets

/-- The amended invariant: additionally, every rate is non-negative. -/
def bracketsWellFormed (brackets : List TaxBracket) : Prop :=
  bracketsContiguousAscending brackets ∧ ∀ b ∈ brackets, 0 ≤ b.rate

/-- Upper bound of the final bracket (0 for an empty list). -/
def lastBracketMax (brackets : List TaxBracket) : ℚ :=
  match brackets.getLast? with
  | some b => b.max
  | none => 0

/-- A configuration whose single all-covering bracket has rate -1: it
satisfies the stated invariant (contiguous from 0, ascending, rates
non-decreasing, top bracket effectively unbounded as in the shipped
configurations) but its rate is negative. -/
def negativeRateConfiguration : TaxLawConfiguration :=
  { taxYear := 2024
    standardDeductions := fun _ => 0
    taxBrackets := fun _ => [⟨0, 999999999, -1⟩]
    socialSecurityWageBase := 0
    socialSecurityRate := 0
    medicareRate := 0
    additionalMedicareRate := 0
    additionalMedicareThreshold := fun _ => 0
    personalExemption := 0
    childTaxCreditAmount := 0
    childTaxCreditPhaseoutThreshold := fun _ => 0 }

/-- C1: for a single filer in tax year 2024 whose only income is wages of
60000, `calculateTax` yields taxable income 45400 and federal tax before
credits 5295.50 via the bracket walk (1100 + 4047 + 148.50), and with
federal withholding of 5000 it yields `amountOwed = 295.50` and
`refundAmount = 0`. -/
theorem scenario2024_single_wages60000 :
    (calculateTax scenarioReturn2024 getTaxYear2024Configuration).map
        TaxCalculation.taxableIncome = some 45400
      ∧ (calculateTax scenarioReturn2024 getTaxYear2024Configuration).map
          TaxCalculation.federalTaxBeforeCredits = some 5295.50
      ∧ calculateFederalTax 45400 getTaxYear2024Configuration FilingStatus.single
          = 1100 + 4047 + 148.50
      ∧ (calculateTax scenarioReturn2024 getTaxYear2024Configuration).map
          TaxCalculation.amountOwed = some 295.50
      ∧ (calculateTax scenarioReturn2024 getTaxYear2024Configuration).map
          TaxCalculation.refundAmount = some 0 := by
  refine ⟨?_, ?_, ?_, ?_, ?_⟩ <;>
    norm_num [calculateTax, scenarioReturn2024, getTaxYear2024Configuration,
      calculateGrossIncome, calculateAdjustedGrossIncome, calculateTaxableIncome,
      calculateFederalTax, bracketWalk, calculateTotalCredits, calculateChildTaxCredit,
      calculateSelfEmploymentTax, selfEmploymentNetProfit, calculateTotalWithholding,
      calculateMarginalTaxRate, marginalRateOfList, marginalLoop,
      standardDeductions2024, taxBrackets2024, childTaxCreditPhaseoutThreshold2024,
      roundToTwoDec, roundToFourDec, jsRound, max_def, min_def]

/-- Rounding half toward positive infinity preserves non-negativity. -/
theorem jsRound_nonneg {x : ℚ} (h : 0 ≤ x) : 0 ≤ jsRound x := by
  unfold jsRound
  have hz : (0 : ℤ) ≤ ⌊x + 1 / 2⌋ := by
    rw [Int.le_floor]
    push_cast
    linarith
  exact_mod_cast hz

/-- Two-decimal rounding preserves non-negativity. -/
theorem roundToTwoDec_nonneg {x : ℚ} (h : 0 ≤ x) : 0 ≤ roundToTwoDec x := by
  unfold roundToTwoDec
  exact div_nonneg (jsRound_nonneg (by nlinarith)) (by norm_num)

/-- Two-decimal rounding of zero is zero. -/
theorem roundToTwoDec_zero : roundToTwoDec 0 = 0 := by
  norm_num [roundToTwoDec, jsRound]

/-- Four-decimal rounding of zero is zero. -/
theorem roundToFourDec_zero : roundToFourDec 0 = 0 := by
  norm_num [roundToFourDec, jsRound]

/-- Integer ceiling rewritten through the floor, so that concrete ceilings
can be evaluated numerically. -/
theorem intCeil_as_neg_floor (x : ℚ) : (⌈x⌉ : ℤ) = -⌊-x⌋ := by
  rw [Int.floor_neg, neg_neg]

/-- Arithmetic core of the refund-versus-owed settlement step of
`calculateTax`, for any withholding `W` and liability `L`. -/
theorem settle_core (W L : ℚ) :
    ¬(0 < roundToTwoDec (if W + 0 > L then W + 0 - L else 0)
        ∧ 0 < roundToTwoDec (if W + 0 > L then 0 else L - W - 0))
      ∧ 0 ≤ roundToTwoDec (if W + 0 > L then W + 0 - L else 0)
      ∧ 0 ≤ roundToTwoDec (if W + 0 > L then 0 else L - W - 0) := by
  by_cases hc : W + 0 > L
  · have h1 : (0 : ℚ) ≤ W + 0 - L := by linarith
    simp only [if_pos hc, roundToTwoDec_zero]
    exact ⟨fun hcon => absurd hcon.2 (by norm_num), roundToTwoDec_nonneg h1, le_refl 0⟩
  · have h1 : (0 : ℚ) ≤ L - W - 0 := by push_neg at hc; linarith
    simp only [if_neg hc, roundToTwoDec_zero]
    exact ⟨fun hcon => absurd hcon.1 (by norm_num), le_refl 0, roundToTwoDec_nonneg h1⟩

/-- C2: whenever `calculateTax` succeeds, the returned calculation never has
`refundAmount` and `amountOwed` simultaneously positive, and both fields are
non-negative, after the final 2-decimal rounding, for every return and law
configuration. -/
theorem refund_and_owed_never_both_positive (taxReturn : TaxReturn)
    (taxLawConfig : TaxLawConfiguration) (c : TaxCalculation)
    (h : calculateTax taxReturn taxLawConfig = some c) :
    ¬(0 < c.refundAmount ∧ 0 < c.amountOwed)
      ∧ 0 ≤ c.refundAmount ∧ 0 ≤ c.amountOwed := by
  simp only [calculateTax] at h
  obtain ⟨m, hm, hc⟩ := Option.map_eq_some'.mp h
  subst hc
  exact settle_core _ _

/-- Witness for C2 at the concrete 2024 scenario return. -/
theorem refund_and_owed_witness :
    ¬(0 < scenarioCalc2024.refundAmount ∧ 0 < scenarioCalc2024.amountOwed)
      ∧ 0 ≤ scenarioCalc2024.refundAmount ∧ 0 ≤ scenarioCalc2024.amountOwed :=
  refund_and_owed_never_both_positive scenarioReturn2024 getTaxYear2024Configuration
    scenarioCalc2024 (by
      norm_num [calculateTax, scenarioReturn2024, getTaxYear2024Configuration,
        scenarioCalc2024, calculateGrossIncome, calculateAdjustedGrossIncome,
        calculateTaxableIncome, calculateFederalTax, bracketWalk, calculateTotalCredits,
        calculateChildTaxCredit, calculateSelfEmploymentTax, selfEmploymentNetProfit,
        calculateTotalWithholding, calculateMarginalTaxRate, marginalRateOfList,
        marginalLoop, standardDeductions2024, taxBrackets2024,
        childTaxCreditPhaseoutThreshold2024, roundToTwoDec, roundToFourDec, jsRound,
        max_def, min_def, TaxCalculation.mk.injEq])

/-- C4 counterexample: with base credit 30, threshold 200000 and AGI 200001,
the credit is floored at 0, not reduced by exactly 50 (which would give -20). -/
theorem childTaxCredit_reduction_counterexample :
    calculateChildTaxCredit 30 200001 getTaxYear2024Configuration FilingStatus.single = 0
      ∧ (0 : ℚ) ≠ 30 - 50 := by
  constructor
  · norm_num [calculateChildTaxCredit, getTaxYear2024Configuration,
      childTaxCreditPhaseoutThreshold2024, intCeil_as_neg_floor, max_def]
  · norm_num

/-- C4 amended: the child credit equals the full base amount at or below the
threshold (in particular at AGI equal to the threshold), above the threshold
it equals `max 0 (base - ceil((AGI - threshold)/1000) * 50)`, and at AGI one
above the threshold it is reduced by exactly 50 provided the base amount is
at least 50. -/
theorem childTaxCredit_phaseout (baseCredit adjustedGrossIncome : ℚ)
    (taxLawConfig : TaxLawConfiguration) (filingStatus : FilingStatus) :
    (adjustedGrossIncome ≤ taxLawConfig.childTaxCreditPhaseoutThreshold filingStatus →
        calculateChildTaxCredit baseCredit adjustedGrossIncome taxLawConfig filingStatus
          = baseCredit)
      ∧ (taxLawConfig.childTaxCreditPhaseoutThreshold filingStatus < adjustedGrossIncome →
          calculateChildTaxCredit baseCredit adjustedGrossIncome taxLawConfig filingStatus
            = max 0 (baseCredit
                - ((⌈(adjustedGrossIncome
                    - taxLawConfig.childTaxCreditPhaseoutThreshold filingStatus) / 1000⌉ : ℤ)
                  : ℚ) * 50))
      ∧ calculateChildTaxCredit baseCredit
          (taxLawConfig.childTaxCreditPhaseoutThreshold filingStatus) taxLawConfig filingStatus
          = baseCredit
      ∧ (50 ≤ baseCredit →
          calculateChildTaxCredit baseCredit
              (taxLawConfig.childTaxCreditPhaseoutThreshold filingStatus + 1) taxLawConfig
              filingStatus
            = baseCredit - 50) := by
  refine ⟨?_, ?_, ?_, ?_⟩
  · intro hle
    by_cases hb : baseCredit = 0
    · simp [calculateChildTaxCredit, hb]
    · simp [calculateChildTaxCredit, hb, hle]
  · intro hgt
    by_cases hb : baseCredit = 0
    · have hcl : (1 : ℤ) ≤ ⌈(adjustedGrossIncome
          - taxLawConfig.childTaxCreditPhaseoutThreshold filingStatus) / 1000⌉ :=
        Int.ceil_pos.mpr (div_pos (by linarith) (by norm_num))
      have hcq : (1 : ℚ) ≤ ((⌈(adjustedGrossIncome
          - taxLawConfig.childTaxCreditPhaseoutThreshold filingStatus) / 1000⌉ : ℤ) : ℚ) := by
        exact_mod_cast hcl
      simp only [calculateChildTaxCredit, hb, if_pos]
      rw [max_eq_left (by nlinarith)]
    · simp [calculateChildTaxCredit, hb, not_le.mpr hgt]
  · by_cases hb : baseCredit = 0
    · simp [calculateChildTaxCredit, hb]
    · simp [calculateChildTaxCredit, hb]
  · intro h50
    have hb : baseCredit ≠ 0 := by intro h0; rw [h0] at h50; norm_num at h50
    have hgt : ¬(taxLawConfig.childTaxCreditPhaseoutThreshold filingStatus + 1
        ≤ taxLawConfig.childTaxCreditPhaseoutThreshold filingStatus) := by linarith
    have harg : (taxLawConfig.childTaxCreditPhaseoutThreshold filingStatus + 1
        - taxLawConfig.childTaxCreditPhaseoutThreshold filingStatus) / 1000 = (1 : ℚ) / 1000 := by
      ring
    have hceil : (⌈((1 : ℚ) / 1000)⌉ : ℤ) = 1 := by
      rw [Int.ceil_eq_iff]
      constructor <;> norm_num
    simp only [calculateChildTaxCredit, hb, if_neg, if_false, hgt, ite_false, harg, hceil]
    rw [max_eq_right (by push_cast; linarith)]
    push_cast
    ring

/-- Witness for C4 at the married-filing-jointly 2024 configuration with base
credit 2000: full credit at the threshold, 1950 one dollar above it. -/
theorem childTaxCredit_phaseout_witness :
    calculateChildTaxCredit 2000 400000 getTaxYear2024Configuration
        FilingStatus.marriedFilingJointly = 2000
      ∧ calculateChildTaxCredit 2000
          (getTaxYear2024Configuration.childTaxCreditPhaseoutThreshold
              FilingStatus.marriedFilingJointly + 1) getTaxYear2024Configuration
          FilingStatus.marriedFilingJointly = 2000 - 50 :=
  ⟨(childTaxCredit_phaseout 2000 400000 getTaxYear2024Configuration
        FilingStatus.marriedFilingJointly).1
      (by norm_num [getTaxYear2024Configuration, childTaxCreditPhaseoutThreshold2024]),
    (childTaxCredit_phaseout 2000 0 getTaxYear2024Configuration
        FilingStatus.marriedFilingJointly).2.2.2 (by norm_num)⟩

/-- C5 counterexample: under a law configuration whose self-employment rates
are zero, the self-employment tax at net profit 401 is 0, not strictly
positive. -/
theorem selfEmploymentTax_zero_rate_counterexample :
    selfEmploymentNetProfit seIncome401 = 401
      ∧ calculateSelfEmploymentTax seIncome401 zeroRateConfiguration = 0 := by
  constructor
  · norm_num [selfEmploymentNetProfit, seIncome401]
  · norm_num [calculateSelfEmploymentTax, selfEmploymentNetProfit, seIncome401,
      zeroRateConfiguration, min_def]

/-- C5 amended: the self-employment tax is 0 whenever total net profit is at
most 400 (in particular at exactly 400); above 400 it equals
`min(profit * 0.9235, wageBase) * ssRate * 2 + (profit * 0.9235) * medicareRate * 2`;
and at net profit 401 it is strictly positive provided the configuration's
social-security rate and wage base are non-negative and its Medicare rate is
positive (as in the shipped configurations). -/
theorem selfEmploymentTax_characterization (income : IncomeData)
    (taxLawConfig : TaxLawConfiguration) :
    (selfEmploymentNetProfit income ≤ 400 →
        calculateSelfEmploymentTax income taxLawConfig = 0)
      ∧ (400 < selfEmploymentNetProfit income →
          calculateSelfEmploymentTax income taxLawConfig
            = min (selfEmploymentNetProfit income * 0.9235)
                  taxLawConfig.socialSecurityWageBase
                * taxLawConfig.socialSecurityRate * 2
              + selfEmploymentNetProfit income * 0.9235 * taxLawConfig.medicareRate * 2)
      ∧ (selfEmploymentNetProfit income = 400 →
          calculateSelfEmploymentTax income taxLawConfig = 0)
      ∧ (selfEmploymentNetProfit income = 401 →
          0 ≤ taxLawConfig.socialSecurityRate → 0 ≤ taxLawConfig.socialSecurityWageBase →
          0 < taxLawConfig.medicareRate →
          0 < calculateSelfEmploymentTax income taxLawConfig) := by
  refine ⟨?_, ?_, ?_, ?_⟩
  · intro hle
    simp [calculateSelfEmploymentTax, hle]
  · intro hgt
    simp [calculateSelfEmploymentTax, not_le.mpr hgt]
  · intro h400
    simp [calculateSelfEmploymentTax, h400]
  · intro h401 hss hwb hmed
    simp only [calculateSelfEmploymentTax, h401]
    norm_num
    have hbase : (0 : ℚ) < 401 * 0.9235 := by norm_num
    have h1 : 0 ≤ min ((401 : ℚ) * 0.9235) taxLawConfig.socialSecurityWageBase
        * taxLawConfig.socialSecurityRate * 2 :=
      mul_nonneg (mul_nonneg (le_min_iff.mpr ⟨hbase.le, hwb⟩) hss) (by norm_num)
    have h2 : 0 < (401 : ℚ) * 0.9235 * taxLawConfig.medicareRate * 2 :=
      mul_pos (mul_pos hbase hmed) (by norm_num)
    nlinarith

/-- Witness for C5 under the shipped 2024 configuration: tax 0 at net profit
400, strictly positive at 401. -/
theorem selfEmploymentTax_witness :
    calculateSelfEmploymentTax seIncome400 getTaxYear2024Configuration = 0
      ∧ 0 < calculateSelfEmploymentTax seIncome401 getTaxYear2024Configuration :=
  ⟨(selfEmploymentTax_characterization seIncome400 getTaxYear2024Configuration).2.2.1
      (by norm_num [selfEmploymentNetProfit, seIncome400]),
    (selfEmploymentTax_characterization seIncome401 getTaxYear2024Configuration).2.2.2
      (by norm_num [selfEmploymentNetProfit, seIncome401])
      (by norm_num [getTaxYear2024Configuration])
      (by norm_num [getTaxYear2024Configuration])
      (by norm_num [getTaxYear2024Configuration])⟩

/-- C6 counterexample: at a concrete return, the response after a store error
is literally the same value as the response when no configuration exists, so
the two failure causes are not distinguishable results. -/
theorem storeError_notFound_same_response :
    calculateTaxResponse scenarioReturn2024 StoreResult.notFound
      = calculateTaxResponse scenarioReturn2024 StoreResult.storeError := rfl

/-- C6 amended: for every tax return, both failure causes of the
configuration lookup (empty result and thrown store error) surface to the
caller of `calculateTax` as the identical internal error; they are
distinguished only in logs, not in the returned result. -/
theorem storeError_indistinguishable (taxReturn : TaxReturn) :
    calculateTaxResponse taxReturn StoreResult.storeError
        = Except.error (CalcError.internalError (configNotFoundMessage taxReturn.taxYear))
      ∧ calculateTaxResponse taxReturn StoreResult.notFound
        = Except.error (CalcError.internalError (configNotFoundMessage taxReturn.taxYear)) :=
  ⟨rfl, rfl⟩

/-- The last element of a non-empty list exists. -/
theorem cons_getLast?_exists {α : Type} (b : α) (bs : List α) :
    ∃ c, (b :: bs).getLast? = some c := by
  induction bs generalizing b with
  | nil => exact ⟨b, rfl⟩
  | cons c cs ih => simpa [List.getLast?_cons_cons] using ih c

/-- Marginal-rate lookup succeeds on every non-empty bracket list. -/
theorem marginalRateOfList_isSome (brackets : List TaxBracket) (x : ℚ)
    (h : brackets ≠ []) : (marginalRateOfList brackets x).isSome = true := by
  unfold marginalRateOfList
  cases hm : marginalLoop brackets x with
  | some rate => rfl
  | none =>
    cases brackets with
    | nil => exact absurd rfl h
    | cons b bs =>
      obtain ⟨c, hc⟩ := cons_getLast?_exists b bs
      simp [hc]

/-- C9 counterexample: at the 2024 scenario, the returned effective tax rate
is the 4-decimal rounding 0.0883, which differs from the exact quotient of
the returned liability and AGI. -/
theorem effectiveTaxRate_rounding_counterexample :
    (calculateTax scenarioReturn2024 getTaxYear2024Configuration).map
        TaxCalculation.effectiveTaxRate = some 0.0883
      ∧ (calculateTax scenarioReturn2024 getTaxYear2024Configuration).map
          TaxCalculation.totalTaxLiability = some 5295.50
      ∧ (calculateTax scenarioReturn2024 getTaxYear2024Configuration).map
          TaxCalculation.adjustedGrossIncome = some 60000
      ∧ (0.0883 : ℚ) ≠ 5295.50 / 60000 := by
  refine ⟨?_, ?_, ?_, by norm_num⟩ <;>
    norm_num [calculateTax, scenarioReturn2024, getTaxYear2024Configuration,
      calculateGrossIncome, calculateAdjustedGrossIncome, calculateTaxableIncome,
      calculateFederalTax, bracketWalk, calculateTotalCredits, calculateChildTaxCredit,
      calculateSelfEmploymentTax, selfEmploymentNetProfit, calculateTotalWithholding,
      calculateMarginalTaxRate, marginalRateOfList, marginalLoop,
      standardDeductions2024, taxBrackets2024, childTaxCreditPhaseoutThreshold2024,
      roundToTwoDec, roundToFourDec, jsRound, max_def, min_def]

/-- C9 amended: whenever the return's filing status has a non-empty bracket
list, `calculateTax` succeeds (never faults, also at AGI zero), AGI is
non-negative by construction, and the returned effective tax rate is the
4-decimal rounding of liability over AGI when AGI is positive and exactly 0
when AGI is zero. -/
theorem effectiveTaxRate_guarded (taxReturn : TaxReturn)
    (taxLawConfig : TaxLawConfiguration)
    (hb : taxLawConfig.taxBrackets taxReturn.filingStatus ≠ []) :
    (calculateTax taxReturn taxLawConfig).isSome = true
      ∧ 0 ≤ adjustedGrossIncomeOf taxReturn
      ∧ (0 < adjustedGrossIncomeOf taxReturn →
          (calculateTax taxReturn taxLawConfig).map TaxCalculation.effectiveTaxRate
            = some (roundToFourDec
                (totalTaxLiabilityOf taxReturn taxLawConfig / adjustedGrossIncomeOf taxReturn)))
      ∧ (adjustedGrossIncomeOf taxReturn = 0 →
          (calculateTax taxReturn taxLawConfig).map TaxCalculation.effectiveTaxRate
            = some 0) := by
  have hs := marginalRateOfList_isSome (taxLawConfig.taxBrackets taxReturn.filingStatus)
    (taxableIncomeOf taxReturn taxLawConfig) hb
  obtain ⟨m, hm⟩ := Option.isSome_iff_exists.mp hs
  simp only [taxableIncomeOf, adjustedGrossIncomeOf] at hm
  refine ⟨?_, ?_, ?_, ?_⟩
  · simp [calculateTax, calculateMarginalTaxRate, hm]
  · simp only [adjustedGrossIncomeOf, calculateAdjustedGrossIncome]
    exact le_max_left _ _
  · intro hpos
    have hpos' := hpos
    simp only [adjustedGrossIncomeOf] at hpos'
    simp [calculateTax, calculateMarginalTaxRate, hm, hpos', totalTaxLiabilityOf,
      taxableIncomeOf, adjustedGrossIncomeOf]
  · intro hzero
    have hzero' := hzero
    simp only [adjustedGrossIncomeOf] at hzero'
    have hnot : ¬(0 < calculateAdjustedGrossIncome (calculateGrossIncome taxReturn.income)
        taxReturn.deductions) := by rw [hzero']; norm_num
    simp [calculateTax, calculateMarginalTaxRate, hm, hnot, roundToFourDec_zero]

/-- Witness for C9 at a return with no income at all: AGI is zero and the
returned effective tax rate is 0. -/
theorem effectiveTaxRate_guarded_witness :
    (calculateTax zeroReturn getTaxYear2024Configuration).map
        TaxCalculation.effectiveTaxRate = some 0 :=
  (effectiveTaxRate_guarded zeroReturn getTaxYear2024Configuration
      (by simp [getTaxYear2024Configuration, taxBrackets2024, zeroReturn])).2.2.2
    (by norm_num [adjustedGrossIncomeOf, calculateAdjustedGrossIncome,
      calculateGrossIncome, zeroReturn])

/-- Membership in a stable insertion. -/
theorem mem_insertDesc (r y : DeductionRecommendation)
    (l : List DeductionRecommendation) : y ∈ insertDesc r l ↔ y = r ∨ y ∈ l := by
  induction l with
  | nil => simp [insertDesc]
  | cons x xs ih =>
    by_cases hc : r.potentialSavings < x.potentialSavings
    · simp only [insertDesc, if_pos hc, List.mem_cons, ih]
      tauto
    · simp only [insertDesc, if_neg hc, List.mem_cons]

/-- Stable insertion preserves descending order by potential savings. -/
theorem pairwise_insertDesc (r : DeductionRecommendation)
    (l : List DeductionRecommendation)
    (h : List.Pairwise (fun a b => b.potentialSavings ≤ a.potentialSavings) l) :
    List.Pairwise (fun a b => b.potentialSavings ≤ a.potentialSavings) (insertDesc r l) := by
  induction l with
  | nil => simp [insertDesc]
  | cons x xs ih =>
    rw [List.pairwise_cons] at h
    by_cases hc : r.potentialSavings < x.potentialSavings
    · simp only [insertDesc, if_pos hc]
      rw [List.pairwise_cons]
      refine ⟨?_, ih h.2⟩
      intro y hy
      rcases (mem_insertDesc r y xs).mp hy with rfl | hyx
      · exact le_of_lt hc
      · exact h.1 y hyx
    · push_neg at hc
      simp only [insertDesc, if_neg (not_lt.mpr hc)]
      rw [List.pairwise_cons]
      refine ⟨?_, List.pairwise_cons.mpr h⟩
      intro y hy
      rcases List.mem_cons.mp hy with rfl | hyx
      · exact hc
      · exact le_trans (h.1 y hyx) hc

/-- Stable insertion is a permutation of prepending. -/
theorem perm_insertDesc (r : DeductionRecommendation)
    (l : List DeductionRecommendation) : (insertDesc r l).Perm (r :: l) := by
  induction l with
  | nil => exact List.Perm.refl _
  | cons x xs ih =>
    by_cases hc : r.potentialSavings < x.potentialSavings
    · simp only [insertDesc, if_pos hc]
      exact (ih.cons x).trans (List.Perm.swap r x xs)
    · simp only [insertDesc, if_neg hc]
      exact List.Perm.refl _

/-- Stability of insertion: filtering by any exact value of the sort key
commutes with insertion, because the inserted element only jumps over
elements with a strictly greater key. -/
theorem filter_insertDesc (r : DeductionRecommendation)
    (l : List DeductionRecommendation) (v : ℚ) :
    (insertDesc r l).filter (fun y => decide (y.potentialSavings = v))
      = (r :: l).filter (fun y => decide (y.potentialSavings = v)) := by
  induction l with
  | nil => rfl
  | cons x xs ih =>
    by_cases hc : r.potentialSavings < x.potentialSavings
    · simp only [insertDesc, if_pos hc]
      by_cases hx : x.potentialSavings = v
      · have hr : ¬(r.potentialSavings = v) := by rw [← hx]; exact ne_of_lt hc
        simp [List.filter_cons, hx, hr, ih]
      · simp [List.filter_cons, hx, ih]
    · simp only [insertDesc, if_neg hc]

/-- The stable sort produces a list in descending order of potential savings. -/
theorem pairwise_sortDesc (l : List DeductionRecommendation) :
    List.Pairwise (fun a b => b.potentialSavings ≤ a.potentialSavings)
      (sortByPotentialSavingsDesc l) := by
  induction l with
  | nil => simp [sortByPotentialSavingsDesc]
  | cons x xs ih => exact pairwise_insertDesc x _ ih

/-- The stable sort is a permutation of its input. -/
theorem perm_sortDesc (l : List DeductionRecommendation) :
    (sortByPotentialSavingsDesc l).Perm l := by
  induction l with
  | nil => exact List.Perm.refl _
  | cons x xs ih =>
    exact (perm_insertDesc x (sortByPotentialSavingsDesc xs)).trans (ih.cons x)

/-- Stability of the sort: the elements carrying any fixed value of the sort
key appear in the sorted list exactly in their original order. -/
theorem filter_sortDesc (l : List DeductionRecommendation) (v : ℚ) :
    (sortByPotentialSavingsDesc l).filter (fun y => decide (y.potentialSavings = v))
      = l.filter (fun y => decide (y.potentialSavings = v)) := by
  induction l with
  | nil => rfl
  | cons x xs ih =>
    calc (sortByPotentialSavingsDesc (x :: xs)).filter
          (fun y => decide (y.potentialSavings = v))
        = (x :: sortByPotentialSavingsDesc xs).filter
            (fun y => decide (y.potentialSavings = v)) :=
          filter_insertDesc x (sortByPotentialSavingsDesc xs) v
      _ = (x :: xs).filter (fun y => decide (y.potentialSavings = v)) := by
          by_cases hx : x.potentialSavings = v <;> simp [List.filter_cons, hx, ih]

/-- C7: for every tax return and lookup outcome, the recommendation list of
`optimizeDeductions` is sorted in descending order of `potentialSavings`;
recommendations with equal `potentialSavings` appear in their original
rule-evaluation order (stable sort); and the aggregate `potentialSavings`
equals the sum of the individual recommendations' savings. -/
theorem optimizeDeductions_sorted_stable_sum (taxReturn : TaxReturn)
    (taxLawConfig : Option TaxLawConfiguration) :
    List.Pairwise (fun a b => b.potentialSavings ≤ a.potentialSavings)
        (optimizeDeductions taxReturn taxLawConfig).recommendations
      ∧ (∀ v : ℚ,
          (optimizeDeductions taxReturn taxLawConfig).recommendations.filter
              (fun y => decide (y.potentialSavings = v))
            = (ruleRecommendations taxReturn).filter
                (fun y => decide (y.potentialSavings = v)))
      ∧ (optimizeDeductions taxReturn taxLawConfig).potentialSavings
          = ((optimizeDeductions taxReturn taxLawConfig).recommendations.map
              DeductionRecommendation.potentialSavings).sum
      ∧ (optimizeDeductions taxReturn taxLawConfig).potentialSavings
          = ((ruleRecommendations taxReturn).map
              DeductionRecommendation.potentialSavings).sum := by
  refine ⟨?_, ?_, ?_, ?_⟩
  · exact pairwise_sortDesc _
  · intro v
    exact filter_sortDesc _ v
  · rfl
  · show ((sortByPotentialSavingsDesc (ruleRecommendations taxReturn)).map
        DeductionRecommendation.potentialSavings).sum
      = ((ruleRecommendations taxReturn).map DeductionRecommendation.potentialSavings).sum
    exact ((perm_sortDesc (ruleRecommendations taxReturn)).map
      DeductionRecommendation.potentialSavings).sum_eq

/-- C8 counterexample: on a return with self-employment income, the business
rule contributes three recommendations at once, not zero or one. -/
theorem businessRule_three_recommendations :
    (analyzeBusinessDeductions seReturn2024).length = 3
      ∧ ¬((analyzeBusinessDeductions seReturn2024).length = 0
          ∨ (analyzeBusinessDeductions seReturn2024).length = 1) := by
  constructor <;> simp [analyzeBusinessDeductions, seReturn2024]

/-- C8 amended: per rule, the number of contributed recommendations is:
medical 0 to 2, SALT 0 or 1, mortgage interest 0 or 1, charitable 0 or 1,
business exactly 0 or 3, education 0 to 2, retirement 1 or 2. -/
theorem analyzer_recommendation_counts (taxReturn : TaxReturn) :
    (analyzeMedicalDeductions taxReturn).length ≤ 2
      ∧ (analyzeStateLocalTaxDeductions taxReturn).length ≤ 1
      ∧ (analyzeMortgageInterestDeductions taxReturn).length ≤ 1
      ∧ (analyzeCharitableDeductions taxReturn).length ≤ 1
      ∧ ((analyzeBusinessDeductions taxReturn).length = 0
          ∨ (analyzeBusinessDeductions taxReturn).length = 3)
      ∧ (analyzeEducationDeductions taxReturn).length ≤ 2
      ∧ 1 ≤ (analyzeRetirementDeductions taxReturn).length
      ∧ (analyzeRetirementDeductions taxReturn).length ≤ 2 := by
  refine ⟨?_, ?_, ?_, ?_, ?_, ?_, ?_, ?_⟩
  · simp only [analyzeMedicalDeductions]
    split_ifs <;> simp
  · simp only [analyzeStateLocalTaxDeductions]
    split_ifs <;> simp
  · simp only [analyzeMortgageInterestDeductions]
    split_ifs <;> simp
  · simp only [analyzeCharitableDeductions]
    split_ifs <;> simp
  · simp only [analyzeBusinessDeductions]
    split_ifs <;> simp
  · simp only [analyzeEducationDeductions]
    split_ifs <;> simp
  · simp only [analyzeRetirementDeductions]
    split_ifs <;> simp
  · simp only [analyzeRetirementDeductions]
    split_ifs <;> simp

/-- C10: `analyzeDeductionStrategy` leaves the caller's tax return unchanged:
on a well-formed heap, the concretized original return after the call equals
its value before the call in every field, because the hypothetical itemized
increase is written only to the freshly allocated copy of the deductions
object. -/
theorem analyzeDeductionStrategy_frame (s : Store) (taxReturn : TaxReturnRef)
    (proposedDeductions : List ProposedDeduction) (store : StoreResult)
    (h : taxReturn.deductionsRef < s.next) :
    concretize (analyzeDeductionStrategy s taxReturn proposedDeductions store).2 taxReturn
      = concretize s taxReturn := by
  have hne : taxReturn.deductionsRef ≠ s.next := Nat.ne_of_lt h
  simp [analyzeDeductionStrategy, concretize, Store.read, Store.write, Store.alloc, hne]

/-- Witness for C10 on a one-object heap with a concrete proposed deduction. -/
theorem analyzeDeductionStrategy_frame_witness :
    concretize (analyzeDeductionStrategy sampleStore sampleReturnRef
        [{ category := "office", amount := 500 }]
        (StoreResult.found getTaxYear2024Configuration)).2 sampleReturnRef
      = concretize sampleStore sampleReturnRef :=
  analyzeDeductionStrategy_frame sampleStore sampleReturnRef
    [{ category := "office", amount := 500 }]
    (StoreResult.found getTaxYear2024Configuration)
    (by norm_num [sampleStore, sampleReturnRef])

/-- In a contiguous ascending bracket list, every bracket's lower bound is at
least the head's lower bound. -/
theorem head_min_le_mem_min (a : TaxBracket) (as : List TaxBracket)
    (hchain : List.Chain' (fun p q => p.max = q.min) (a :: as))
    (hasc : ∀ b ∈ a :: as, b.min < b.max) :
    ∀ b ∈ a :: as, a.min ≤ b.min := by
  induction as generalizing a with
  | nil =>
    intro b hb
    rcases List.mem_cons.mp hb with rfl | hb'
    · exact le_refl _
    · exact absurd hb' (List.not_mem_nil b)
  | cons c cs ih =>
    intro b hb
    rcases List.mem_cons.mp hb with rfl | hb'
    · exact le_refl _
    · have hac : a.max = c.min := (List.chain'_cons.mp hchain).1
      have h1 : c.min ≤ b.min :=
        ih c (List.chain'_cons.mp hchain).2
          (fun b hb => hasc b (List.mem_cons_of_mem a hb)) b hb'
      have h2 : a.min < a.max := hasc a (List.mem_cons_self a _)
      rw [hac] at h2
      linarith

/-- In a contiguous ascending bracket list, every bracket's upper bound is at
most the final bracket's upper bound. -/
theorem mem_max_le_lastBracketMax (a : TaxBracket) (as : List TaxBracket)
    (hchain : List.Chain' (fun p q => p.max = q.min) (a :: as))
    (hasc : ∀ b ∈ a :: as, b.min < b.max) :
    ∀ b ∈ a :: as, b.max ≤ lastBracketMax (a :: as) := by
  induction as generalizing a with
  | nil =>
    intro b hb
    rcases List.mem_cons.mp hb with rfl | hb'
    · exact le_refl _
    · exact absurd hb' (List.not_mem_nil b)
  | cons c cs ih =>
    intro b hb
    have hlast : lastBracketMax (a :: c :: cs) = lastBracketMax (c :: cs) := by
      simp [lastBracketMax, List.getLast?_cons_cons]
    have tailchain := (List.chain'_cons.mp hchain).2
    have tailasc : ∀ b ∈ c :: cs, b.min < b.max :=
      fun b hb => hasc b (List.mem_cons_of_mem a hb)
    rcases List.mem_cons.mp hb with rfl | hb'
    · have hac : b.max = c.min := (List.chain'_cons.mp hchain).1
      have h1 : c.max ≤ lastBracketMax (c :: cs) :=
        ih c tailchain tailasc c (List.mem_cons_self c _)
      have h2 : c.min < c.max := tailasc c (List.mem_cons_self c _)
      rw [hlast, hac]
      linarith
    · rw [hlast]
      exact ih c tailchain tailasc b hb'

/-- In a contiguous ascending bracket list, at most one bracket contains any
given income in its half-open range. -/
theorem bracket_contains_unique (brackets : List TaxBracket)
    (hchain : List.Chain' (fun p q => p.max = q.min) brackets)
    (hasc : ∀ b ∈ brackets, b.min < b.max) (x : ℚ) :
    ∀ b1 ∈ brackets, ∀ b2 ∈ brackets,
      b1.min ≤ x → x < b1.max → b2.min ≤ x → x < b2.max → b1 = b2 := by
  induction brackets with
  | nil => intro b1 hb1; exact absurd hb1 (List.not_mem_nil b1)
  | cons a as ih =>
    intro b1 hb1 b2 hb2 h1l h1r h2l h2r
    have tailasc : ∀ b ∈ as, b.min < b.max :=
      fun b hb => hasc b (List.mem_cons_of_mem a hb)
    rcases List.mem_cons.mp hb1 with rfl | hb1' <;> rcases List.mem_cons.mp hb2 with rfl | hb2'
    · rfl
    · exfalso
      cases as with
      | nil => exact absurd hb2' (List.not_mem_nil b2)
      | cons c cs =>
        have hac : b1.max = c.min := (List.chain'_cons.mp hchain).1
        have h1 : c.min ≤ b2.min :=
          head_min_le_mem_min c cs (List.chain'_cons.mp hchain).2
            (fun b hb => hasc b (List.mem_cons_of_mem b1 hb)) b2 hb2'
        rw [hac] at h1r
        linarith
    · exfalso
      cases as with
      | nil => exact absurd hb1' (List.not_mem_nil b1)
      | cons c cs =>
        have hac : b2.max = c.min := (List.chain'_cons.mp hchain).1
        have h1 : c.min ≤ b1.min :=
          head_min_le_mem_min c cs (List.chain'_cons.mp hchain).2
            (fun b hb => hasc b (List.mem_cons_of_mem b2 hb)) b1 hb1'
        rw [hac] at h2r
        linarith
    · exact ih hchain.tail tailasc b1 hb1' b2 hb2' h1l h1r h2l h2r

/-- The marginal-rate loop returns the rate of a containing bracket. -/
theorem marginalLoop_eq_of_contains (brackets : List TaxBracket)
    (hchain : List.Chain' (fun p q => p.max = q.min) brackets)
    (hasc : ∀ b ∈ brackets, b.min < b.max) (x : ℚ) :
    ∀ b ∈ brackets, b.min ≤ x → x < b.max → marginalLoop brackets x = some b.rate := by
  induction brackets with
  | nil => intro b hb; exact absurd hb (List.not_mem_nil b)
  | cons a as ih =>
    intro b hb hl hr
    by_cases hc : a.min ≤ x ∧ x < a.max
    · have hab : a = b :=
        bracket_contains_unique (a :: as) hchain hasc x a (List.mem_cons_self a _) b hb
          hc.1 hc.2 hl hr
      simp only [marginalLoop, hab]
      rw [if_pos (show b.min ≤ x ∧ x < b.max from ⟨hl, hr⟩)]
    · rcases List.mem_cons.mp hb with rfl | hb'
      · exact absurd ⟨hl, hr⟩ hc
      · simp only [marginalLoop, if_neg hc]
        exact ih hchain.tail (fun b hb => hasc b (List.mem_cons_of_mem a hb)) b hb' hl hr

/-- Below the final upper bound, the marginal-rate loop finds a bracket. -/
theorem marginalLoop_isSome_below (a : TaxBracket) (as : List TaxBracket) (x : ℚ)
    (hchain : List.Chain' (fun p q => p.max = q.min) (a :: as))
    (hasc : ∀ b ∈ a :: as, b.min < b.max)
    (hax : a.min ≤ x) (hlt : x < lastBracketMax (a :: as)) :
    (marginalLoop (a :: as) x).isSome = true := by
  induction as generalizing a with
  | nil =>
    have hm : lastBracketMax [a] = a.max := rfl
    rw [hm] at hlt
    simp only [marginalLoop]
    rw [if_pos (show a.min ≤ x ∧ x < a.max from ⟨hax, hlt⟩)]
    rfl
  | cons c cs ih =>
    by_cases hc : x < a.max
    · simp only [marginalLoop]
      rw [if_pos (show a.min ≤ x ∧ x < a.max from ⟨hax, hc⟩)]
      rfl
    · push_neg at hc
      have hac : a.max = c.min := (List.chain'_cons.mp hchain).1
      have hlast : lastBracketMax (a :: c :: cs) = lastBracketMax (c :: cs) := by
        simp [lastBracketMax, List.getLast?_cons_cons]
      have hcx : c.min ≤ x := hac ▸ hc
      rw [hlast] at hlt
      have hrec := ih c (List.chain'_cons.mp hchain).2
        (fun b hb => hasc b (List.mem_cons_of_mem a hb)) hcx hlt
      simp only [marginalLoop]
      rw [if_neg (fun hcon => absurd hcon.2 (not_lt.mpr hc))]
      exact hrec

/-- At or above the final upper bound, the marginal-rate loop falls through. -/
theorem marginalLoop_eq_none_above (brackets : List TaxBracket) (x : ℚ)
    (hchain : List.Chain' (fun p q => p.max = q.min) brackets)
    (hasc : ∀ b ∈ brackets, b.min < b.max)
    (hge : lastBracketMax brackets ≤ x) : marginalLoop brackets x = none := by
  induction brackets with
  | nil => rfl
  | cons a as ih =>
    have hmax : a.max ≤ lastBracketMax (a :: as) :=
      mem_max_le_lastBracketMax a as hchain hasc a (List.mem_cons_self a _)
    simp only [marginalLoop]
    rw [if_neg (fun hcon => absurd hcon.2 (not_lt.mpr (le_trans hmax hge)))]
    cases as with
    | nil => rfl
    | cons c cs =>
      have hlast : lastBracketMax (a :: c :: cs) = lastBracketMax (c :: cs) := by
        simp [lastBracketMax, List.getLast?_cons_cons]
      rw [hlast] at hge
      exact ih (List.chain'_cons.mp hchain).2
        (fun b hb => hasc b (List.mem_cons_of_mem a hb)) hge

/-- Fallback-free reading of the marginal-rate lookup when the loop matched. -/
theorem marginalRateOfList_of_loop_some (brackets : List TaxBracket) (x rate : ℚ)
    (h : marginalLoop brackets x = some rate) :
    marginalRateOfList brackets x = some rate := by
  simp [marginalRateOfList, h]

/-- Fallback reading of the marginal-rate lookup when the loop fell through. -/
theorem marginalRateOfList_of_loop_none (brackets : List TaxBracket) (x : ℚ)
    (h : marginalLoop brackets x = none) :
    marginalRateOfList brackets x = brackets.getLast?.map TaxBracket.rate := by
  simp [marginalRateOfList, h]

/-- The bracket walk is non-negative when rates and widths are. -/
theorem bracketWalk_nonneg (brackets : List TaxBracket)
    (hr : ∀ b ∈ brackets, 0 ≤ b.rate) (hw : ∀ b ∈ brackets, b.min ≤ b.max) (z : ℚ) :
    0 ≤ bracketWalk brackets z := by
  induction brackets generalizing z with
  | nil => exact le_refl 0
  | cons a as ih =>
    by_cases hz : z ≤ 0
    · simp [bracketWalk, hz]
    · push_neg at hz
      simp only [bracketWalk, if_neg (not_le.mpr hz)]
      have hwid : 0 ≤ a.max - a.min := by
        have := hw a (List.mem_cons_self a _)
        linarith
      have ht : 0 ≤ min z (a.max - a.min) := le_min (le_of_lt hz) hwid
      have h1 : 0 ≤ min z (a.max - a.min) * a.rate :=
        mul_nonneg ht (hr a (List.mem_cons_self a _))
      have h2 : 0 ≤ bracketWalk as (z - min z (a.max - a.min)) :=
        ih (fun b hb => hr b (List.mem_cons_of_mem a hb))
          (fun b hb => hw b (List.mem_cons_of_mem a hb)) _
      linarith

/-- The bracket walk is monotone in income when rates and widths are
non-negative. -/
theorem bracketWalk_mono (brackets : List TaxBracket)
    (hr : ∀ b ∈ brackets, 0 ≤ b.rate) (hw : ∀ b ∈ brackets, b.min ≤ b.max)
    (x y : ℚ) (hxy : x ≤ y) :
    bracketWalk brackets x ≤ bracketWalk brackets y := by
  induction brackets generalizing x y with
  | nil => exact le_refl 0
  | cons a as ih =>
    by_cases hx0 : x ≤ 0
    · simp only [bracketWalk, if_pos hx0]
      exact bracketWalk_nonneg (a :: as) hr hw y
    · push_neg at hx0
      have hy0 : ¬(y ≤ 0) := by linarith
      simp only [bracketWalk, if_neg (not_le.mpr hx0), if_neg hy0]
      have hwid : 0 ≤ a.max - a.min := by
        have := hw a (List.mem_cons_self a _)
        linarith
      have h1 : min x (a.max - a.min) ≤ min y (a.max - a.min) := min_le_min hxy (le_refl _)
      have h2 : x - min x (a.max - a.min) ≤ y - min y (a.max - a.min) := by
        rcases le_total x (a.max - a.min) with h | h
        · rw [min_eq_left h]
          rcases le_total y (a.max - a.min) with h' | h'
          · rw [min_eq_left h']
            linarith
          · rw [min_eq_right h']
            linarith
        · rw [min_eq_right h, min_eq_right (le_trans h hxy)]
          linarith
      have h3 : min x (a.max - a.min) * a.rate ≤ min y (a.max - a.min) * a.rate :=
        mul_le_mul_of_nonneg_right h1 (hr a (List.mem_cons_self a _))
      have h4 := ih (fun b hb => hr b (List.mem_cons_of_mem a hb))
        (fun b hb => hw b (List.mem_cons_of_mem a hb)) _ _ h2
      linarith

/-- C3 counterexample: a bracket list satisfying the stated configuration
invariant (contiguous from 0, ascending, rates non-decreasing, unbounded top
bracket) on which `calculateFederalTax` strictly decreases from income 0 to
income 1000, because the stated invariant does not exclude negative rates. -/
theorem federalTax_not_monotone_counterexample :
    bracketsContiguousAscending (negativeRateConfiguration.taxBrackets FilingStatus.single)
      ∧ calculateFederalTax 1000 negativeRateConfiguration FilingStatus.single
        < calculateFederalTax 0 negativeRateConfiguration FilingStatus.single := by
  constructor
  · refine ⟨rfl, List.chain'_singleton _, ?_, List.chain'_singleton _⟩
    intro b hb
    rw [negativeRateConfiguration] at hb
    simp only [List.mem_singleton] at hb
    rw [hb]
    norm_num
  · norm_num [calculateFederalTax, negativeRateConfiguration, bracketWalk, min_def]

/-- Partition and marginal-lookup properties over a raw bracket list. -/
theorem marginal_partition_list (brackets : List TaxBracket) (x : ℚ)
    (hwf : bracketsWellFormed brackets) (hx : 0 ≤ x) :
    (marginalRateOfList brackets x).isSome = true
      ∧ (∀ b ∈ brackets, b.min ≤ x → x < b.max →
          marginalRateOfList brackets x = some b.rate)
      ∧ (∀ b1 ∈ brackets, ∀ b2 ∈ brackets,
          b1.min ≤ x → x < b1.max → b2.min ≤ x → x < b2.max → b1 = b2)
      ∧ (x < lastBracketMax brackets → (marginalLoop brackets x).isSome = true)
      ∧ (lastBracketMax brackets ≤ x →
          marginalRateOfList brackets x = brackets.getLast?.map TaxBracket.rate) := by
  obtain ⟨⟨hhead, hchain, hasc, _hrmono⟩, _hrnn⟩ := hwf
  cases brackets with
  | nil => simp at hhead
  | cons a as =>
    have hamin : a.min = 0 := by
      simp only [List.head?, Option.map_some] at hhead
      exact Option.some.inj hhead
    refine ⟨?_, ?_, ?_, ?_, ?_⟩
    · exact marginalRateOfList_isSome (a :: as) x (by simp)
    · intro b hb hl hr
      exact marginalRateOfList_of_loop_some (a :: as) x b.rate
        (marginalLoop_eq_of_contains (a :: as) hchain hasc x b hb hl hr)
    · exact bracket_contains_unique (a :: as) hchain hasc x
    · intro hlt
      exact marginalLoop_isSome_below a as x hchain hasc (hamin ▸ hx) hlt
    · intro hge
      exact marginalRateOfList_of_loop_none (a :: as) x
        (marginalLoop_eq_none_above (a :: as) x hchain hasc hge)

/-- C3 amended: under the configuration invariant strengthened with
non-negative rates, for any filing status and non-negative taxable income the
marginal-rate lookup succeeds and assigns the income to exactly one bracket:
it returns the rate of the (unique) bracket whose half-open range contains
the income, falling back to the top bracket's rate at or above the final
bound; and `calculateFederalTax` is monotonically non-decreasing in taxable
income. -/
theorem bracket_partition_and_monotone (taxLawConfig : TaxLawConfiguration)
    (filingStatus : FilingStatus) (x y : ℚ)
    (hwf : bracketsWellFormed (taxLawConfig.taxBrackets filingStatus))
    (hx : 0 ≤ x) (hxy : x ≤ y) :
    (calculateMarginalTaxRate x taxLawConfig filingStatus).isSome = true
      ∧ (∀ b ∈ taxLawConfig.taxBrackets filingStatus, b.min ≤ x → x < b.max →
          calculateMarginalTaxRate x taxLawConfig filingStatus = some b.rate)
      ∧ (∀ b1 ∈ taxLawConfig.taxBrackets filingStatus,
          ∀ b2 ∈ taxLawConfig.taxBrackets filingStatus,
            b1.min ≤ x → x < b1.max → b2.min ≤ x → x < b2.max → b1 = b2)
      ∧ (x < lastBracketMax (taxLawConfig.taxBrackets filingStatus) →
          (marginalLoop (taxLawConfig.taxBrackets filingStatus) x).isSome = true)
      ∧ (lastBracketMax (taxLawConfig.taxBrackets filingStatus) ≤ x →
          calculateMarginalTaxRate x taxLawConfig filingStatus
            = ((taxLawConfig.taxBrackets filingStatus).getLast?).map TaxBracket.rate)
      ∧ calculateFederalTax x taxLawConfig filingStatus
          ≤ calculateFederalTax y taxLawConfig filingStatus := by
  obtain ⟨h1, h2, h3, h4, h5⟩ :=
    marginal_partition_list (taxLawConfig.taxBrackets filingStatus) x hwf hx
  refine ⟨h1, h2, h3, h4, h5, ?_⟩
  exact bracketWalk_mono (taxLawConfig.taxBrackets filingStatus)
    hwf.2 (fun b hb => le_of_lt (hwf.1.2.2.1 b hb)) x y hxy

/-- Witness for C3 at the 2024 single-filer brackets with incomes 30000 and
45400. -/
theorem bracket_partition_and_monotone_witness :
    bracketsWellFormed (getTaxYear2024Configuration.taxBrackets FilingStatus.single)
      ∧ calculateFederalTax 30000 getTaxYear2024Configuration FilingStatus.single
        ≤ calculateFederalTax 45400 getTaxYear2024Configuration FilingStatus.single := by
  have hwf : bracketsWellFormed (getTaxYear2024Configuration.taxBrackets FilingStatus.single) := by
    norm_num [bracketsWellFormed, bracketsContiguousAscending, getTaxYear2024Configuration,
      taxBrackets2024, List.chain'_cons, List.chain'_singleton, List.forall_mem_cons]
  exact ⟨hwf, (bracket_partition_and_monotone getTaxYear2024Configuration FilingStatus.single
    30000 45400 hwf (by norm_num) (by norm_num)).2.2.2.2.2⟩

end TaxSquirrel
